import Mathlib

/-!
Verification development for the healthcare ambient-scribe backend
(`src/frontend/api/index.ts`).  The API handlers are shallowly embedded as
pure functions over an explicit database state; the FHIR bundle generator
is embedded as a pure function.  Dates are modelled as natural numbers
(epoch instants) together with an injective, never-empty rendering
`dateToISOString`, mirroring `Date.toISOString()` which never returns an
empty string.  Request bodies are modelled with `Option` fields: `none`
stands for a JSON field that is absent (`undefined`), `some s` for a
string-valued field.
-/

namespace Scribe

/-- Patient record (Prisma `patient` table). -/
structure Patient where
  id : String
  name : String
  dob : Option Nat
  mrn : Option String
deriving Repr, DecidableEq

/-- Clinician record (Prisma `clinician` table). -/
structure Clinician where
  id : String
  name : String
  specialty : Option String
deriving Repr, DecidableEq

/-- Encounter record (Prisma `encounter` table). -/
structure EncounterRec where
  id : String
  clinicianId : String
  patientId : String
  status : String
  encounterDate : Nat
  audioUrl : Option String
  transcript : Option String
  soapSubjective : Option String
  soapObjective : Option String
  soapAssessment : Option String
  soapPlan : Option String
  icd10Codes : List String
  signedAt : Option Nat
  fhirBundleId : Option String
deriving Repr, DecidableEq

/-- The store: the three Prisma tables. -/
structure DB where
  clinicians : List Clinician
  patients : List Patient
  encounters : List EncounterRec
deriving Repr, DecidableEq

/-- `prisma.encounter.findUnique({ where: { id } })`. -/
def DB.findEncounter (db : DB) (id : String) : Option EncounterRec :=
  db.encounters.find? (fun e => e.id == id)

/-- `prisma.clinician.findUnique({ where: { id } })`. -/
def DB.findClinician (db : DB) (id : String) : Option Clinician :=
  db.clinicians.find? (fun c => c.id == id)

/-- `prisma.patient.findUnique({ where: { id } })`. -/
def DB.findPatient (db : DB) (id : String) : Option Patient :=
  db.patients.find? (fun p => p.id == id)

/-- `prisma.encounter.update({ where: { id }, data })`: rewrite the record
with the matching id. -/
def DB.updateEncounter (db : DB) (id : String) (f : EncounterRec → EncounterRec) : DB :=
  { db with encounters := db.encounters.map (fun e => if e.id == id then f e else e) }

/-- JavaScript truthiness of an optional string
(`undefined` and `""` are falsy). -/
def truthyStr : Option String → Bool
  | some s => !s.isEmpty
  | none => false

/-- Lifecycle rank: RECORDING < PROCESSING < REVIEW < SIGNED. -/
def statusRank : String → Nat
  | "PROCESSING" => 1
  | "REVIEW" => 2
  | "SIGNED" => 3
  | _ => 0

/-! ### POST /api/encounters (create) -/

/-- Request body of `POST /api/encounters`. -/
structure CreateBody where
  patientId : Option String
  clinicianId : Option String
  patientName : Option String
  patientDob : Option Nat
  patientMRN : Option String
deriving Repr, DecidableEq

/-- Success payload of `POST /api/encounters` (HTTP 201 body). -/
structure CreateOk where
  id : String
  status : String
  patientName : String
  clinicianName : String
  encounterDate : Nat
deriving Repr, DecidableEq

/-- Result of `POST /api/encounters`: 201 payload, or an HTTP error code
with message. -/
inductive CreateResult where
  | ok (payload : CreateOk)
  | error (code : Nat) (msg : String)
deriving Repr, DecidableEq

/-- Handler of `POST /api/encounters` (index.ts lines 117-174).
`newEncId` models the id generated by the store for the new encounter and
`now` the clock instant used for the default `encounterDate`.
A body without `patientId` makes `findUnique({ where: { id: undefined } })`
throw, which the catch block turns into a 500. -/
def createEncounter (db : DB) (body : CreateBody) (newEncId : String) (now : Nat) :
    CreateResult × DB :=
  let clinicianId := body.clinicianId.getD "demo-clinician"
  match body.patientId with
  | none => (.error 500 "Failed to create encounter", db)
  | some pid =>
    let (clinician, db1) :=
      match db.findClinician clinicianId with
      | some c => (c, db)
      | none =>
        let c : Clinician := ⟨clinicianId, "Dr. Gregory House", some "Internal Medicine"⟩
        (c, { db with clinicians := db.clinicians ++ [c] })
    let (patient, db2) :=
      match db1.findPatient pid with
      | some p => (p, db1)
      | none =>
        let p : Patient :=
          ⟨pid, if truthyStr body.patientName then body.patientName.getD "" else "Unknown Patient",
            body.patientDob, body.patientMRN⟩
        (p, { db1 with patients := db1.patients ++ [p] })
    let enc : EncounterRec :=
      { id := newEncId, clinicianId := clinician.id, patientId := patient.id,
        status := "RECORDING", encounterDate := now, audioUrl := none, transcript := none,
        soapSubjective := none, soapObjective := none, soapAssessment := none,
        soapPlan := none, icd10Codes := [], signedAt := none, fhirBundleId := none }
    let db3 := { db2 with encounters := db2.encounters ++ [enc] }
    (.ok { id := newEncId, status := "RECORDING", patientName := patient.name,
           clinicianName := clinician.name, encounterDate := now }, db3)

/-! ### PATCH /api/encounters/:id -/

/-- Request body of `PATCH /api/encounters/:id` (sparse field bag). -/
structure PatchBody where
  status : Option String
  transcript : Option String
  audioUrl : Option String
  soapSubjective : Option String
  soapObjective : Option String
  soapAssessment : Option String
  soapPlan : Option String
  icd10Codes : Option (List String)
deriving Repr, DecidableEq

/-- The empty patch body (every field absent). -/
def PatchBody.empty : PatchBody :=
  ⟨none, none, none, none, none, none, none, none⟩

/-- The `updateData` construction of the PATCH handler
(index.ts lines 183-193): `status` is copied only when truthy, the other
fields whenever present (`!== undefined`); `signedAt` is stamped with the
current time exactly when the supplied status is the string `SIGNED`. -/
def applyPatch (body : PatchBody) (now : Nat) (e : EncounterRec) : EncounterRec :=
  { e with
    status := if truthyStr body.status then body.status.getD e.status else e.status,
    transcript := if body.transcript.isSome then body.transcript else e.transcript,
    audioUrl := if body.audioUrl.isSome then body.audioUrl else e.audioUrl,
    soapSubjective := if body.soapSubjective.isSome then body.soapSubjective else e.soapSubjective,
    soapObjective := if body.soapObjective.isSome then body.soapObjective else e.soapObjective,
    soapAssessment := if body.soapAssessment.isSome then body.soapAssessment else e.soapAssessment,
    soapPlan := if body.soapPlan.isSome then body.soapPlan else e.soapPlan,
    icd10Codes := match body.icd10Codes with | some l => l | none => e.icd10Codes,
    signedAt := if body.status == some "SIGNED" then some now else e.signedAt }

/-- Result of `PATCH /api/encounters/:id`: id and status of the updated
record, or an HTTP error. -/
inductive PatchResult where
  | ok (id : String) (status : String)
  | error (code : Nat) (msg : String)
deriving Repr, DecidableEq

/-- Handler of `PATCH /api/encounters/:id` (index.ts lines 177-214).
`prisma.encounter.update` throws on a missing record; the catch block
turns that into a 500. -/
def patchEncounter (db : DB) (id : String) (body : PatchBody) (now : Nat) :
    PatchResult × DB :=
  match db.findEncounter id with
  | none => (.error 500 "Failed to update encounter", db)
  | some e =>
    let e' := applyPatch body now e
    (.ok e'.id e'.status, db.updateEncounter id (fun r => applyPatch body now r))

/-! ### POST /api/encounters/:id/generate-soap -/

/-- Response of the external note-generation collaborator. -/
structure SoapPayload where
  subjective : String
  objective : String
  assessment : String
  plan : String
  icd10_codes : List String
  processing_time_ms : Nat
deriving Repr, DecidableEq

/-- Result of `POST /api/encounters/:id/generate-soap`. -/
inductive GenResult where
  | ok (soap : SoapPayload)
  | error (code : Nat) (msg : String)
deriving Repr, DecidableEq

/-- Handler of `POST /api/encounters/:id/generate-soap`
(index.ts lines 217-266).  `aiResult` models the collaborator call:
`none` when the fetch fails or returns non-ok (caught, 500, store
untouched), `some r` its parsed response.  A missing or empty transcript
(`!encounter.transcript`) yields 400 before the collaborator is called. -/
def generateSoap (db : DB) (id : String) (aiResult : Option SoapPayload) :
    GenResult × DB :=
  match db.findEncounter id with
  | none => (.error 404 "Encounter not found", db)
  | some e =>
    if truthyStr e.transcript then
      match aiResult with
      | none => (.error 500 "Failed to generate SOAP", db)
      | some r =>
        let db' := db.updateEncounter id (fun e => { e with
          status := "REVIEW",
          soapSubjective := some r.subjective,
          soapObjective := some r.objective,
          soapAssessment := some r.assessment,
          soapPlan := some r.plan,
          icd10Codes := r.icd10_codes })
        (.ok r, db')
    else
      (.error 400 "No transcript available", db)

/-! ### POST /api/encounters/:id/sign -/

/-- Result of `POST /api/encounters/:id/sign`. -/
inductive SignResult where
  | ok (status : String)
  | error (code : Nat) (msg : String)
deriving Repr, DecidableEq

/-- Handler of `POST /api/encounters/:id/sign` (index.ts lines 269-286):
an unconditional `update` setting status SIGNED and `signedAt` to the
current time; the only failure is the thrown-on-missing-record 500. -/
def signEncounter (db : DB) (id : String) (now : Nat) : SignResult × DB :=
  match db.findEncounter id with
  | none => (.error 500 "Failed to sign encounter", db)
  | some _ =>
    (.ok "SIGNED", db.updateEncounter id (fun e =>
      { e with status := "SIGNED", signedAt := some now }))

/-! ### FHIR bundle generator (`generateFhirBundle`, index.ts lines 374-512) -/

/-- Rendering of a date instant, modelling `Date.toISOString()`:
injective and never empty, with the date part before the `T` separator. -/
def dateToISOString (n : Nat) : String :=
  toString n ++ "T00:00:00.000Z"

/-- Split a character list on a separator character, keeping empty
segments, as JavaScript `split` does with a one-character separator. -/
def splitCharsOn (sep : Char) : List Char → List (List Char)
  | [] => [[]]
  | c :: cs =>
    match splitCharsOn sep cs with
    | [] => [[]]
    | t :: ts => if c = sep then [] :: t :: ts else (c :: t) :: ts

/-- JavaScript `s.split(sep)` for a one-character separator: always
returns at least one (possibly empty) token, and preserves empty tokens
between consecutive separators. -/
def jsSplit (s : String) (sep : Char) : List String :=
  (splitCharsOn sep s.data).map (fun l => ⟨l⟩)

/-- An MRN identifier entry on the Patient resource. -/
structure MrnIdentifier where
  system : String
  value : String
deriving Repr, DecidableEq

/-- A FHIR coding triple. -/
structure Coding where
  system : String
  code : String
  display : String
deriving Repr, DecidableEq

/-- A FHIR human name as emitted by the generator (the `prefix` array is
modelled by `namePrefix`; it is empty on the Patient resource). -/
structure HumanName where
  use : String
  family : String
  given : List String
  namePrefix : List String
deriving Repr, DecidableEq

/-- The Patient resource of the bundle. -/
structure PatientResource where
  resourceType : String
  id : String
  identifier : List MrnIdentifier
  name : List HumanName
  birthDate : Option String
deriving Repr, DecidableEq

/-- A qualification entry (`{ code: { coding: [...] } }`) on the
Practitioner resource, with the nested `code.coding` list flattened. -/
structure Qualification where
  codeCoding : List Coding
deriving Repr, DecidableEq

/-- The Practitioner resource of the bundle. -/
structure PractitionerResource where
  resourceType : String
  id : String
  name : List HumanName
  qualification : List Qualification
deriving Repr, DecidableEq

/-- A `reasonCode` entry (`{ coding: [...] }`) on the Encounter resource. -/
structure ReasonCode where
  coding : List Coding
deriving Repr, DecidableEq

/-- The Encounter resource of the bundle (the `class` object is `encClass`;
`period.start` and `period.end` are flattened; `reasonCode` is `none`
exactly when the source leaves the key `undefined`). -/
structure EncounterResource where
  resourceType : String
  id : String
  status : String
  encClass : Coding
  subjectRef : String
  participantRefs : List String
  periodStart : String
  periodEnd : String
  reasonCode : Option (List ReasonCode)
deriving Repr, DecidableEq

/-- A section of the Composition resource: title, code text, and the
`text.div` markup fragment. -/
structure CompositionSection where
  title : String
  codeText : String
  divText : String
deriving Repr, DecidableEq

/-- The Composition resource of the bundle. -/
structure CompositionResource where
  resourceType : String
  id : String
  status : String
  typeCoding : List Coding
  subjectRef : String
  date : String
  authorRefs : List String
  encounterRef : String
  sections : List CompositionSection
deriving Repr, DecidableEq

/-- The exported bundle: the four entries, in the fixed order Patient,
Practitioner, Encounter, Composition, are the four resource fields. -/
structure Bundle where
  resourceType : String
  type : String
  timestamp : String
  patientEntry : PatientResource
  practitionerEntry : PractitionerResource
  encounterEntry : EncounterResource
  compositionEntry : CompositionResource
deriving Repr, DecidableEq

/-- Input of `generateFhirBundle` (the encounter joined with its clinician
and patient records, as the route loads it). -/
structure FhirInput where
  id : String
  status : String
  soapSubjective : Option String
  soapObjective : Option String
  soapAssessment : Option String
  soapPlan : Option String
  icd10Codes : List String
  encounterDate : Nat
  signedAt : Option Nat
  clinician : Clinician
  patient : Patient
deriving Repr, DecidableEq

/-- `x || 'N/A'` on an optional note field (empty strings are falsy). -/
def orNA : Option String → String
  | some s => if s.isEmpty then "N/A" else s
  | none => "N/A"

/-- `<div>${x || 'N/A'}</div>`. -/
def divWrap (x : Option String) : String :=
  "<div>" ++ orNA x ++ "</div>"

/-- `generateFhirBundle` (index.ts lines 374-512), with the ambient clock
reading `new Date().toISOString()` passed in as `now`. -/
def generateFhirBundle (e : FhirInput) (now : String) : Bundle :=
  let patientId := "patient-" ++ e.patient.id
  let practitionerId := "practitioner-" ++ e.clinician.id
  let encounterId := "encounter-" ++ e.id
  let compositionId := "composition-" ++ e.id
  let patientToks := jsSplit e.patient.name ' '
  let clinicianToks := jsSplit e.clinician.name ' '
  { resourceType := "Bundle",
    type := "collection",
    timestamp := now,
    patientEntry :=
      { resourceType := "Patient",
        id := patientId,
        identifier := match e.patient.mrn with
          | some m =>
            if m.isEmpty then []
            else [⟨"http://hospital.example.org/mrn", m⟩]
          | none => [],
        name := [{ use := "official",
                   family := patientToks.getLastD "",
                   given := [patientToks.headD ""],
                   namePrefix := [] }],
        birthDate := e.patient.dob.map (fun d =>
          (jsSplit (dateToISOString d) 'T').headD "") },
    practitionerEntry :=
      { resourceType := "Practitioner",
        id := practitionerId,
        name := [{ use := "official",
                   family := clinicianToks.getLastD "",
                   given := [String.intercalate " " clinicianToks.dropLast],
                   namePrefix := ["Dr."] }],
        qualification := match e.clinician.specialty with
          | some sp =>
            if sp.isEmpty then []
            else [⟨[⟨"http://terminology.hl7.org/CodeSystem/v2-0360", "MD", sp⟩]⟩]
          | none => [] },
    encounterEntry :=
      { resourceType := "Encounter",
        id := encounterId,
        status := if e.status == "SIGNED" then "finished"
          else if e.status == "REVIEW" then "in-progress"
          else if e.status == "PROCESSING" then "in-progress"
          else "in-progress",
        encClass := ⟨"http://terminology.hl7.org/CodeSystem/v3-ActCode", "AMB", "ambulatory"⟩,
        subjectRef := "Patient/" ++ patientId,
        participantRefs := ["Practitioner/" ++ practitionerId],
        periodStart := dateToISOString e.encounterDate,
        periodEnd := match e.signedAt with
          | some d =>
            let s := dateToISOString d
            if s.isEmpty then now else s
          | none => now,
        reasonCode := if e.icd10Codes.length > 0 then
            some [⟨e.icd10Codes.map (fun c =>
              ⟨"http://hl7.org/fhir/sid/icd-10-cm", c, c⟩)⟩]
          else none },
    compositionEntry :=
      { resourceType := "Composition",
        id := compositionId,
        status := "final",
        typeCoding := [⟨"http://loinc.org", "34108-1", "Outpatient Note"⟩],
        subjectRef := "Patient/" ++ patientId,
        date := now,
        authorRefs := ["Practitioner/" ++ practitionerId],
        encounterRef := "Encounter/" ++ encounterId,
        sections :=
          [⟨"Subjective", "Patient symptoms and history", divWrap e.soapSubjective⟩,
           ⟨"Objective", "Physical exam and vitals", divWrap e.soapObjective⟩,
           ⟨"Assessment", "Diagnoses", divWrap e.soapAssessment⟩,
           ⟨"Plan", "Treatment plan", divWrap e.soapPlan⟩] } }

/-! ### Store invariants and helper lemmas -/

/-- The all-or-none invariant on the four note fields (§3 of the spec). -/
def notesAllOrNone (e : EncounterRec) : Prop :=
  (e.soapSubjective.isSome ∧ e.soapObjective.isSome
    ∧ e.soapAssessment.isSome ∧ e.soapPlan.isSome)
  ∨ (e.soapSubjective = none ∧ e.soapObjective = none
    ∧ e.soapAssessment = none ∧ e.soapPlan = none)

instance (e : EncounterRec) : Decidable (notesAllOrNone e) := by
  unfold notesAllOrNone; infer_instance

theorem find?_map_ite {l : List EncounterRec} {id : String} {f : EncounterRec → EncounterRec}
    (hf : ∀ e, (f e).id = e.id) :
    (l.map (fun e => if e.id == id then f e else e)).find? (fun e => e.id == id)
      = (l.find? (fun e => e.id == id)).map f := by
  induction l with
  | nil => rfl
  | cons a l ih =>
    simp only [List.map_cons, List.find?_cons]
    by_cases h : (a.id == id) = true
    · have ha : a.id = id := by simpa using h
      have hfa : ((f a).id == id) = true := by simp [hf, ha]
      rw [if_pos h, hfa, h]
      rfl
    · have h' : (a.id == id) = false := by simpa using h
      rw [if_neg (by simp [h']), h']
      exact ih

theorem findEncounter_updateEncounter (db : DB) (id : String)
    {f : EncounterRec → EncounterRec} (hf : ∀ e, (f e).id = e.id) :
    (db.updateEncounter id f).findEncounter id = (db.findEncounter id).map f :=
  find?_map_ite hf

theorem statusRank_le_three (s : String) : statusRank s ≤ 3 := by
  unfold statusRank
  repeat' split
  all_goals omega

theorem dateToISOString_not_empty (n : Nat) : (dateToISOString n).isEmpty = false := by
  rw [Bool.eq_false_iff]
  intro h
  have := (String.isEmpty_iff _).1 h
  have hd := congrArg String.data this
  rw [dateToISOString] at hd
  rw [String.data_append] at hd
  simp at hd

theorem getLastD_eq_headD_of_length_one {l : List String} (h : l.length = 1) :
    l.getLastD "" = l.headD "" := by
  match l, h with
  | [a], _ => rfl

/-! ### Concrete fixtures used by counterexamples and witnesses -/

/-- The auto-provisioned demo clinician record. -/
def drHouse : Clinician := ⟨"demo-clinician", "Dr. Gregory House", some "Internal Medicine"⟩

/-- A sample patient record. -/
def johnSmith : Patient := ⟨"pat-1", "John Smith", some 1000, some "MRN123"⟩

/-- A fully populated, already signed encounter. -/
def signedEnc : EncounterRec :=
  { id := "enc-1", clinicianId := "demo-clinician", patientId := "pat-1",
    status := "SIGNED", encounterDate := 50, audioUrl := none,
    transcript := some "Patient reports headache",
    soapSubjective := some "S", soapObjective := some "O",
    soapAssessment := some "A", soapPlan := some "P",
    icd10Codes := ["G44.2"], signedAt := some 100, fhirBundleId := none }

/-- A freshly created encounter (no transcript, no note fields). -/
def freshEnc : EncounterRec :=
  { id := "enc-2", clinicianId := "demo-clinician", patientId := "pat-1",
    status := "RECORDING", encounterDate := 50, audioUrl := none, transcript := none,
    soapSubjective := none, soapObjective := none, soapAssessment := none,
    soapPlan := none, icd10Codes := [], signedAt := none, fhirBundleId := none }

/-- Store holding the signed encounter. -/
def dbSigned : DB := ⟨[drHouse], [johnSmith], [signedEnc]⟩

/-- Store holding the fresh encounter. -/
def dbFresh : DB := ⟨[drHouse], [johnSmith], [freshEnc]⟩

/-- The empty store. -/
def emptyDB : DB := ⟨[], [], []⟩

/-- A sample collaborator response. -/
def aiSample : SoapPayload := ⟨"S2", "O2", "A2", "P2", ["R51"], 42⟩

/-- Exporter input for the signed encounter joined with its records. -/
def sampleSigned : FhirInput :=
  { id := "enc-1", status := "SIGNED",
    soapSubjective := some "S", soapObjective := some "O",
    soapAssessment := some "A", soapPlan := some "P",
    icd10Codes := ["G44.2"], encounterDate := 50, signedAt := some 100,
    clinician := drHouse, patient := johnSmith }

/-- Exporter input for the fresh encounter joined with its records,
with a single-token patient display name. -/
def sampleUnsigned : FhirInput :=
  { id := "enc-2", status := "REVIEW",
    soapSubjective := none, soapObjective := none,
    soapAssessment := none, soapPlan := none,
    icd10Codes := [], encounterDate := 50, signedAt := none,
    clinician := drHouse, patient := ⟨"pat-2", "Cher", none, none⟩ }

/-! ## Claim theorems -/

theorem fhir_status_eq (e : FhirInput) (now : String) :
    (generateFhirBundle e now).encounterEntry.status
      = if e.status == "SIGNED" then "finished" else "in-progress" := by
  by_cases h : (e.status == "SIGNED") = true
  · simp [generateFhirBundle, h]
  · have h1 : (e.status == "SIGNED") = false := by simpa using h
    simp [generateFhirBundle, h1]

/-- C6: for every exported bundle, the Encounter resource's status is
"finished" exactly when the internal status is SIGNED and "in-progress"
for every other internal status, and its period end is the rendering of
`signedAt` exactly when `signedAt` is present; the export-time `now` is
used only when `signedAt` is absent. -/
theorem fhir_status_mapping_and_period_end (e : FhirInput) (now : String) :
    ((generateFhirBundle e now).encounterEntry.status = "finished" ↔ e.status = "SIGNED")
    ∧ (e.status ≠ "SIGNED" →
        (generateFhirBundle e now).encounterEntry.status = "in-progress")
    ∧ (∀ d, e.signedAt = some d →
        (generateFhirBundle e now).encounterEntry.periodEnd = dateToISOString d)
    ∧ (e.signedAt = none →
        (generateFhirBundle e now).encounterEntry.periodEnd = now) := by
  refine ⟨?_, ?_, ?_, ?_⟩
  · rw [fhir_status_eq]
    by_cases h : e.status = "SIGNED"
    · simp [h]
    · simp [h]
  · intro h
    rw [fhir_status_eq]
    simp [h]
  · intro d hd
    simp [generateFhirBundle, hd, dateToISOString_not_empty]
  · intro hd
    simp [generateFhirBundle, hd]

/-- Witness for C6 at the signed sample encounter: the period end equals
the rendering of its `signedAt` instant. -/
theorem fhir_status_mapping_and_period_end_witness :
    (generateFhirBundle sampleSigned "NOW").encounterEntry.periodEnd = dateToISOString 100 :=
  (fhir_status_mapping_and_period_end sampleSigned "NOW").2.2.1 100 rfl

/-- C7: for an empty diagnosis-code list the exported Encounter resource
carries no reason-code field at all (`none`, the key left `undefined`);
for a non-empty list exactly one reason-code entry is emitted, carrying
every code under the fixed ICD-10 system with display equal to the code. -/
theorem fhir_reason_code_rule (e : FhirInput) (now : String) :
    (e.icd10Codes = [] → (generateFhirBundle e now).encounterEntry.reasonCode = none)
    ∧ (e.icd10Codes ≠ [] →
        (generateFhirBundle e now).encounterEntry.reasonCode
          = some [⟨e.icd10Codes.map (fun c =>
              ⟨"http://hl7.org/fhir/sid/icd-10-cm", c, c⟩)⟩]) := by
  constructor
  · intro h
    simp [generateFhirBundle, h]
  · intro h
    have hl : 0 < e.icd10Codes.length := List.length_pos.2 h
    simp [generateFhirBundle, hl]

/-- Witness for C7: the signed sample has the single code `G44.2`, so
exactly one reason-code entry appears, carrying it with itself as
display. -/
theorem fhir_reason_code_rule_witness :
    (generateFhirBundle sampleSigned "NOW").encounterEntry.reasonCode
      = some [⟨[⟨"http://hl7.org/fhir/sid/icd-10-cm", "G44.2", "G44.2"⟩]⟩] :=
  (fhir_reason_code_rule sampleSigned "NOW").2 (by decide)

/-- C8: the exported Patient resource's name is derived by splitting the
display name on the space separator: the first token is the sole given
name and the last token the family name, and when the split yields a
single token both resolve to that same token. -/
theorem fhir_patient_name_split (e : FhirInput) (now : String) :
    ((generateFhirBundle e now).patientEntry.name
      = [{ use := "official",
           family := (jsSplit e.patient.name ' ').getLastD "",
           given := [(jsSplit e.patient.name ' ').headD ""],
           namePrefix := [] }])
    ∧ ((jsSplit e.patient.name ' ').length = 1 →
        (generateFhirBundle e now).patientEntry.name
          = [{ use := "official",
               family := (jsSplit e.patient.name ' ').headD "",
               given := [(jsSplit e.patient.name ' ').headD ""],
               namePrefix := [] }]) := by
  constructor
  · rfl
  · intro h
    have hfam := getLastD_eq_headD_of_length_one h
    calc (generateFhirBundle e now).patientEntry.name
        = [{ use := "official", family := (jsSplit e.patient.name ' ').getLastD "",
             given := [(jsSplit e.patient.name ' ').headD ""], namePrefix := [] }] := rfl
      _ = [{ use := "official", family := (jsSplit e.patient.name ' ').headD "",
             given := [(jsSplit e.patient.name ' ').headD ""], namePrefix := [] }] := by
          rw [hfam]

/-- Witness for C8 at the single-token patient name `Cher`: given and
family both resolve to `Cher`. -/
theorem fhir_patient_name_split_witness :
    (generateFhirBundle sampleUnsigned "NOW").patientEntry.name
      = [{ use := "official", family := "Cher", given := ["Cher"], namePrefix := [] }] :=
  (fhir_patient_name_split sampleUnsigned "NOW").2 (by decide)

/-- C9 counterexample: two exports of the same signed encounter with
distinct clock readings are NOT identical up to the bundle timestamp —
carrying the second run's timestamp over to the first run's bundle still
leaves the bundles different, because the Composition resource's `date`
also embeds the clock reading. -/
theorem fhir_two_runs_counterexample :
    ¬ ({ generateFhirBundle sampleSigned "T1" with timestamp := "T2" }
        = generateFhirBundle sampleSigned "T2") := by
  intro hEq
  have h : ("T1" : String) = "T2" :=
    congrArg (fun b => b.compositionEntry.date) hEq
  exact absurd h (by decide)

/-- C9 (amended): exporting the same encounter twice without intervening
mutation yields bundles identical except for the fields that embed the
clock reading: the bundle timestamp and the Composition resource's date
when the encounter is signed, plus the Encounter resource's period end
when it is not signed. -/
theorem fhir_two_runs_deterministic (e : FhirInput) (n1 n2 : String) :
    (e.signedAt.isSome = true →
      { generateFhirBundle e n1 with
          timestamp := n2,
          compositionEntry :=
            { (generateFhirBundle e n1).compositionEntry with date := n2 } }
        = generateFhirBundle e n2)
    ∧ (e.signedAt = none →
      { generateFhirBundle e n1 with
          timestamp := n2,
          compositionEntry :=
            { (generateFhirBundle e n1).compositionEntry with date := n2 },
          encounterEntry :=
            { (generateFhirBundle e n1).encounterEntry with periodEnd := n2 } }
        = generateFhirBundle e n2) := by
  constructor
  · intro h
    obtain ⟨d, hd⟩ := Option.isSome_iff_exists.1 h
    simp [generateFhirBundle, hd, dateToISOString_not_empty]
  · intro h
    simp [generateFhirBundle, h]

/-- Witness for C9 (amended) at the signed sample: equalising timestamp
and Composition date makes the two runs' bundles equal. -/
theorem fhir_two_runs_deterministic_witness :
    { generateFhirBundle sampleSigned "T1" with
        timestamp := "T2",
        compositionEntry :=
          { (generateFhirBundle sampleSigned "T1").compositionEntry with date := "T2" } }
      = generateFhirBundle sampleSigned "T2" :=
  (fhir_two_runs_deterministic sampleSigned "T1" "T2").1 rfl

/-- C1 counterexample: signing the already-SIGNED sample encounter does
not fail with any state error: it returns success and overwrites
`signedAt` (previously 100) with the new clock reading 200. -/
theorem sign_already_signed_counterexample :
    dbSigned.findEncounter "enc-1" = some signedEnc
    ∧ signedEnc.status = "SIGNED"
    ∧ signedEnc.signedAt = some 100
    ∧ (signEncounter dbSigned "enc-1" 200).1 = .ok "SIGNED"
    ∧ ((signEncounter dbSigned "enc-1" 200).2.findEncounter "enc-1").map
        (fun e => e.signedAt) = some (some 200) := by
  refine ⟨rfl, rfl, rfl, rfl, rfl⟩

/-- C1 (amended): Sign performs no state check at all: for every stored
encounter — already SIGNED or not, note fields populated or not — Sign
succeeds, sets status to SIGNED and overwrites `signedAt` with the
current time; the only failing case is a missing encounter (500). -/
theorem sign_unconditional (db : DB) (id : String) (now : Nat) (e : EncounterRec)
    (h : db.findEncounter id = some e) :
    (signEncounter db id now).1 = .ok "SIGNED"
    ∧ (signEncounter db id now).2.findEncounter id
        = some { e with status := "SIGNED", signedAt := some now } := by
  constructor
  · simp [signEncounter, h]
  · have hupd := findEncounter_updateEncounter db id
      (f := fun r => { r with status := "SIGNED", signedAt := some now })
      (fun _ => rfl)
    simp [signEncounter, h, hupd]

/-- Witness for C1 (amended): signing the already signed sample. -/
theorem sign_unconditional_witness :
    (signEncounter dbSigned "enc-1" 200).1 = .ok "SIGNED"
    ∧ (signEncounter dbSigned "enc-1" 200).2.findEncounter "enc-1"
        = some { signedEnc with status := "SIGNED", signedAt := some 200 } :=
  sign_unconditional dbSigned "enc-1" 200 signedEnc rfl

/-- C2 counterexample: PATCH moves status backwards. On the SIGNED sample
encounter, a PATCH supplying status RECORDING succeeds and leaves the
stored status at RECORDING, whose rank is strictly below SIGNED's. -/
theorem status_regression_counterexample :
    dbSigned.findEncounter "enc-1" = some signedEnc
    ∧ signedEnc.status = "SIGNED"
    ∧ (patchEncounter dbSigned "enc-1"
        { PatchBody.empty with status := some "RECORDING" } 300).1
        = .ok "enc-1" "RECORDING"
    ∧ ((patchEncounter dbSigned "enc-1"
        { PatchBody.empty with status := some "RECORDING" } 300).2.findEncounter
        "enc-1").map (fun e => e.status) = some "RECORDING"
    ∧ statusRank "RECORDING" < statusRank "SIGNED" := by
  refine ⟨rfl, rfl, rfl, rfl, by decide⟩

/-- C2 (amended): only Create and Sign respect the ordering — Create
always starts an encounter at RECORDING and Sign always lands on SIGNED,
the maximum rank, so neither ever lowers the rank; PATCH however writes
any client-supplied status and Generate Note writes REVIEW regardless of
the current status, so observed status values can decrease. -/
theorem status_monotone_for_create_and_sign :
    (∀ (db : DB) (id : String) (now : Nat) (e e' : EncounterRec),
      db.findEncounter id = some e →
      (signEncounter db id now).2.findEncounter id = some e' →
      statusRank e.status ≤ statusRank e'.status)
    ∧ (∀ (db db' : DB) (body : CreateBody) (nid : String) (now : Nat) (p : CreateOk),
      createEncounter db body nid now = (.ok p, db') → p.status = "RECORDING") := by
  constructor
  · intro db id now e e' h h'
    have hupd := findEncounter_updateEncounter db id
      (f := fun r => { r with status := "SIGNED", signedAt := some now })
      (fun _ => rfl)
    rw [signEncounter, h] at h'
    simp only [h, hupd, Option.map_some] at h'
    cases h'
    exact statusRank_le_three _
  · intro db db' body nid now p hok
    cases hb : body.patientId with
    | none =>
      rw [createEncounter, hb] at hok
      simp at hok
    | some pid =>
      rw [createEncounter, hb] at hok
      simp only [Prod.mk.injEq, CreateResult.ok.injEq] at hok
      obtain ⟨h1, -⟩ := hok
      subst h1
      rfl

/-- Witness for C2 (amended): signing the SIGNED sample does not lower
the rank. -/
theorem status_monotone_for_create_and_sign_witness :
    statusRank signedEnc.status
      ≤ statusRank ({ signedEnc with status := "SIGNED", signedAt := some 200 }).status :=
  status_monotone_for_create_and_sign.1 dbSigned "enc-1" 200 signedEnc
    { signedEnc with status := "SIGNED", signedAt := some 200 } rfl rfl

/-- C3 counterexample: on the fresh sample encounter (all four note
fields absent) a PATCH supplying only `soapSubjective` succeeds and is
silently applied, leaving a stored encounter with exactly one of the four
note fields populated — violating the all-or-none invariant. -/
theorem partial_note_update_counterexample :
    notesAllOrNone freshEnc
    ∧ (patchEncounter dbFresh "enc-2"
        { PatchBody.empty with soapSubjective := some "Subj" } 60).1
        = .ok "enc-2" "RECORDING"
    ∧ (patchEncounter dbFresh "enc-2"
        { PatchBody.empty with soapSubjective := some "Subj" } 60).2.findEncounter "enc-2"
        = some { freshEnc with soapSubjective := some "Subj" }
    ∧ ¬ notesAllOrNone { freshEnc with soapSubjective := some "Subj" } := by
  refine ⟨by decide, rfl, rfl, by decide⟩

/-- C3 (amended): the store does not enforce the all-or-none invariant on
the four note fields: a PATCH supplying only `soapSubjective` on an
encounter with all four note fields absent is silently applied — it
succeeds, sets exactly that field and leaves the other three absent, so
the stored encounter violates the invariant. -/
theorem partial_note_update_applied (db : DB) (id : String) (e : EncounterRec)
    (v : String) (now : Nat) (h : db.findEncounter id = some e)
    (hS : e.soapSubjective = none) (hO : e.soapObjective = none)
    (hA : e.soapAssessment = none) (hP : e.soapPlan = none)
    (hStat : e.id = id) :
    (patchEncounter db id { PatchBody.empty with soapSubjective := some v } now).1
      = .ok id e.status
    ∧ (patchEncounter db id
        { PatchBody.empty with soapSubjective := some v } now).2.findEncounter id
      = some { e with soapSubjective := some v }
    ∧ ¬ notesAllOrNone { e with soapSubjective := some v } := by
  have hupd := findEncounter_updateEncounter db id
    (f := fun r => applyPatch { PatchBody.empty with soapSubjective := some v } now r)
    (fun _ => rfl)
  refine ⟨?_, ?_, ?_⟩
  · simp [patchEncounter, h, applyPatch, PatchBody.empty, truthyStr, hStat]
  · rw [patchEncounter, h]
    simp only [hupd, h, Option.map_some]
    simp [applyPatch, PatchBody.empty, truthyStr]
  · simp [notesAllOrNone, hO]

/-- Witness for C3 (amended) at the fresh sample encounter. -/
theorem partial_note_update_applied_witness :
    (patchEncounter dbFresh "enc-2"
        { PatchBody.empty with soapSubjective := some "Subj" } 60).1
      = .ok "enc-2" freshEnc.status
    ∧ (patchEncounter dbFresh "enc-2"
        { PatchBody.empty with soapSubjective := some "Subj" } 60).2.findEncounter "enc-2"
      = some { freshEnc with soapSubjective := some "Subj" }
    ∧ ¬ notesAllOrNone { freshEnc with soapSubjective := some "Subj" } :=
  partial_note_update_applied dbFresh "enc-2" freshEnc "Subj" 60 rfl rfl rfl rfl rfl rfl

/-- C4 counterexample: Generate Note does not fail on a SIGNED encounter.
On the SIGNED sample (which has a transcript) with a successful
collaborator response, it returns success and modifies the encounter,
resetting its status to REVIEW. -/
theorem generate_note_on_signed_counterexample :
    signedEnc.status = "SIGNED"
    ∧ (generateSoap dbSigned "enc-1" (some aiSample)).1 = .ok aiSample
    ∧ ((generateSoap dbSigned "enc-1" (some aiSample)).2.findEncounter "enc-1").map
        (fun e => e.status) = some "REVIEW" := by
  refine ⟨rfl, rfl, rfl⟩

/-- C4 (amended): Generate Note checks the transcript but not the
status. For every stored encounter whose transcript is missing or empty
it fails with HTTP 400 and leaves the store unmodified; for every stored
encounter with a non-empty transcript — its status unchecked, SIGNED
included — a successful collaborator call returns success and rewrites
the four note fields, the diagnosis codes, and the status to REVIEW. -/
theorem generate_note_transcript_check_only :
    (∀ (db : DB) (id : String) (e : EncounterRec) (ai : Option SoapPayload),
      db.findEncounter id = some e →
      (e.transcript = none ∨ e.transcript = some "") →
      generateSoap db id ai = (.error 400 "No transcript available", db))
    ∧ (∀ (db : DB) (id : String) (e : EncounterRec) (r : SoapPayload) (t : String),
      db.findEncounter id = some e →
      e.transcript = some t → t ≠ "" →
      (generateSoap db id (some r)).1 = .ok r
      ∧ (generateSoap db id (some r)).2.findEncounter id
          = some { e with
                   status := "REVIEW",
                   soapSubjective := some r.subjective,
                   soapObjective := some r.objective,
                   soapAssessment := some r.assessment,
                   soapPlan := some r.plan,
                   icd10Codes := r.icd10_codes }) := by
  constructor
  · intro db id e ai h ht
    have htr : truthyStr e.transcript = false := by
      rcases ht with ht | ht
      · simp [truthyStr, ht]
      · rw [ht]; decide
    rw [generateSoap.eq_def, h]
    simp [htr]
  · intro db id e r t h ht hne
    have hie : t.isEmpty = false := by
      rw [Bool.eq_false_iff]
      intro hcontra
      exact hne ((String.isEmpty_iff t).1 hcontra)
    have htr : truthyStr e.transcript = true := by
      simp [truthyStr, ht, hie]
    have hupd := findEncounter_updateEncounter db id
      (f := fun x => { x with
        status := "REVIEW",
        soapSubjective := some r.subjective, soapObjective := some r.objective,
        soapAssessment := some r.assessment, soapPlan := some r.plan,
        icd10Codes := r.icd10_codes })
      (fun _ => rfl)
    constructor
    · rw [generateSoap.eq_def, h]
      simp [htr]
    · rw [generateSoap.eq_def, h]
      simp [htr, hupd, h]

/-- Witness for C4 (amended): the fresh sample encounter has no
transcript, so Generate Note returns 400 and the store is unchanged. -/
theorem generate_note_transcript_check_only_witness :
    generateSoap dbFresh "enc-2" (some aiSample)
      = (.error 400 "No transcript available", dbFresh) :=
  generate_note_transcript_check_only.1 dbFresh "enc-2" freshEnc (some aiSample)
    rfl (Or.inl rfl)

/-- C5 counterexample: Create with an empty patient identifier does NOT
fail with a ValidationError — it succeeds (201), auto-creating a patient
whose identifier is the empty string and creating an encounter. -/
theorem create_empty_patient_id_counterexample :
    (createEncounter emptyDB ⟨some "", none, none, none, none⟩ "enc-9" 10).1
      = .ok { id := "enc-9", status := "RECORDING", patientName := "Unknown Patient",
              clinicianName := "Dr. Gregory House", encounterDate := 10 }
    ∧ (createEncounter emptyDB ⟨some "", none, none, none, none⟩ "enc-9" 10).2.encounters.length
      = 1
    ∧ (createEncounter emptyDB ⟨some "", none, none, none, none⟩ "enc-9" 10).2.findPatient ""
      = some ⟨"", "Unknown Patient", none, none⟩ := by
  refine ⟨rfl, rfl, rfl⟩

/-- C5 (amended): Create never fails with NotFound — and in fact never
fails at all when a patient identifier is supplied, valid or not: patient
and clinician identities are auto-provisioned, the only error path is the
catch-all 500 reached when the body carries no patient identifier, and an
empty patient identifier is accepted — an encounter is still created. -/
theorem create_never_notfound_never_validation :
    (∀ (db : DB) (body : CreateBody) (nid : String) (now : Nat) (c : Nat) (m : String),
      (createEncounter db body nid now).1 = .error c m →
      c = 500 ∧ body.patientId = none)
    ∧ (∀ (db : DB) (body : CreateBody) (nid : String) (now : Nat) (pid : String),
      body.patientId = some pid →
      (∀ (c : Nat) (m : String), (createEncounter db body nid now).1 ≠ .error c m)
      ∧ (createEncounter db body nid now).2.encounters.length
          = db.encounters.length + 1) := by
  have hok : ∀ (db : DB) (body : CreateBody) (nid : String) (now : Nat) (pid : String),
      body.patientId = some pid →
      (∃ p, (createEncounter db body nid now).1 = .ok p)
      ∧ (createEncounter db body nid now).2.encounters.length
          = db.encounters.length + 1 := by
    intro db body nid now pid hb
    rw [createEncounter, hb]
    constructor
    · cases db.findClinician (body.clinicianId.getD "demo-clinician") <;>
        simp only [DB.findPatient] <;>
        cases List.find? (fun p => p.id == pid) db.patients <;>
        exact ⟨_, rfl⟩
    · cases db.findClinician (body.clinicianId.getD "demo-clinician") <;>
        simp only [DB.findPatient] <;>
        cases List.find? (fun p => p.id == pid) db.patients <;>
        simp
  constructor
  · intro db body nid now c m herr
    cases hb : body.patientId with
    | none =>
      rw [createEncounter, hb] at herr
      simp only [CreateResult.error.injEq] at herr
      exact ⟨herr.1.symm, rfl⟩
    | some pid =>
      obtain ⟨⟨p, hp⟩, -⟩ := hok db body nid now pid hb
      rw [hp] at herr
      cases herr
  · intro db body nid now pid hb
    obtain ⟨⟨p, hp⟩, hlen⟩ := hok db body nid now pid hb
    refine ⟨?_, hlen⟩
    intro c m hcontra
    rw [hp] at hcontra
    cases hcontra

/-- Witness for C5 (amended): creating with the empty patient identifier
on the empty store adds one encounter and raises no error. -/
theorem create_never_notfound_never_validation_witness :
    (∀ (c : Nat) (m : String),
      (createEncounter emptyDB ⟨some "", none, none, none, none⟩ "enc-9" 10).1 ≠ .error c m)
    ∧ (createEncounter emptyDB ⟨some "", none, none, none, none⟩ "enc-9" 10).2.encounters.length
        = emptyDB.encounters.length + 1 :=
  create_never_notfound_never_validation.2 emptyDB
    ⟨some "", none, none, none, none⟩ "enc-9" 10 "" rfl

/-- C10: whenever the effective clinician identifier (the supplied one,
or the default `demo-clinician`) matches no existing clinician record,
Create inserts a clinician with that identifier but the fixed display
name `Dr. Gregory House` and specialty `Internal Medicine`, and the
response's `clinicianName` is `Dr. Gregory House`. -/
theorem create_autoprovisions_house_clinician (db : DB) (body : CreateBody)
    (nid : String) (now : Nat) (pid : String)
    (hp : body.patientId = some pid)
    (hc : db.findClinician (body.clinicianId.getD "demo-clinician") = none) :
    ((createEncounter db body nid now).2.findClinician
        (body.clinicianId.getD "demo-clinician")
      = some ⟨body.clinicianId.getD "demo-clinician", "Dr. Gregory House",
              some "Internal Medicine"⟩)
    ∧ (∀ p, (createEncounter db body nid now).1 = .ok p →
        p.clinicianName = "Dr. Gregory House") := by
  have hc' : List.find? (fun c => c.id == body.clinicianId.getD "demo-clinician")
      db.clinicians = none := hc
  constructor
  · rw [createEncounter, hp, hc]
    simp only [DB.findClinician, DB.findPatient]
    cases List.find? (fun p => p.id == pid) db.patients <;>
      simp [List.find?_append, hc']
  · rw [createEncounter, hp, hc]
    simp only [DB.findPatient]
    cases List.find? (fun p => p.id == pid) db.patients <;>
      · intro p hp2
        simp only [CreateResult.ok.injEq] at hp2
        rw [← hp2]

/-- Witness for C10: creating on the empty store with clinician
identifier `dr-9` inserts the House record under `dr-9`. -/
theorem create_autoprovisions_house_clinician_witness :
    ((createEncounter emptyDB ⟨some "pat-9", some "dr-9", none, none, none⟩
        "enc-7" 10).2.findClinician "dr-9"
      = some ⟨"dr-9", "Dr. Gregory House", some "Internal Medicine"⟩)
    ∧ (∀ p, (createEncounter emptyDB ⟨some "pat-9", some "dr-9", none, none, none⟩
        "enc-7" 10).1 = .ok p → p.clinicianName = "Dr. Gregory House") :=
  create_autoprovisions_house_clinician emptyDB
    ⟨some "pat-9", some "dr-9", none, none, none⟩ "enc-7" 10 "pat-9" rfl rfl

end Scribe
